import Mathlib

/-!
A shallow embedding of the guacamole-web client session layer
(`src/lib/guacamole/*.ts`) together with proofs about its behaviour.

Each TypeScript class is modelled by a Lean structure holding the fields the
verified operations read or write, and each method by a pure function from the
old state to the new state plus a list of observable effects (warnings,
transport constructions, instructions sent on the wire, listener
notifications).  Nullable object references are modelled as `Bool` fields
("reference is currently non-null").  JavaScript numbers entering the
resolution pipeline are modelled as `ℚ` (container geometry, pixel density)
and `ℤ` (pixel counts), with `Int.floor` / `Int.fdiv` for `Math.floor`.
-/

namespace GuacWeb

/-- `ConnectionState` enum of `GuacamoleConnection.ts`. -/
inductive ConnectionState
  | IDLE
  | CONNECTING
  | CONNECTED
  | DISCONNECTING
  | DISCONNECTED
  | ERROR
  deriving DecidableEq, Repr

/-- Observable effects of `GuacamoleConnection` methods, in program order:
logger warnings, constructions of the transport objects, attach/detach of the
display element, listener notifications, subsystem destruction, and the
clearing (nulling) of object references. -/
inductive Event
  | warn
  | constructTunnel
  | constructClient
  | attachDisplay
  | notifyState (s : ConnectionState)
  | notifyError
  | destroyClipboard
  | destroyKeyboardGuard
  | destroyCursor
  | destroyResolution
  | nullClipboardRef
  | nullKeyboardGuardRef
  | nullCursorRef
  | nullResolutionRef
  | detachDisplay
  | nullClient
  | nullTunnel
  | nullDisplay
  | nullMouse
  | nullKeyboardHandle
  | nullContainer
  deriving DecidableEq, Repr

/-- State of a `GuacamoleConnection` instance: the `ConnectionState` plus, for
every nullable field of the class, whether the reference is currently non-null.
`hasStateListener` / `hasErrorListener` record whether `onStateChange` /
`onError` callbacks are registered. -/
structure GCState where
  state : ConnectionState
  client : Bool
  tunnel : Bool
  display : Bool
  mouse : Bool
  keyboard : Bool
  container : Bool
  clipboardManager : Bool
  keyboardStateManager : Bool
  mouseCursorManager : Bool
  resolutionManager : Bool
  hasStateListener : Bool
  hasErrorListener : Bool
  deriving DecidableEq, Repr

namespace GCState

/-- `GuacamoleConnection.setState`: returns early when the new state equals the
stored state; otherwise stores it and, when a state-change listener is
registered, fires exactly one notification. -/
def setState (s : GCState) (newState : ConnectionState) : GCState × List Event :=
  if s.state = newState then (s, [])
  else ({ s with state := newState },
        if s.hasStateListener then [Event.notifyState newState] else [])

/-- `GuacamoleConnection.cleanup`, effect for effect in source order:
`destroy()` on each non-null subsystem (clipboard, keyboard-guard, cursor,
resolution), null the four subsystem references, detach the display element
from the container when both are present (the source additionally checks
`displayElement.parentNode === container`, which holds whenever the display was
attached by `setupInputHandlers`), then null `client`, `tunnel`, `display`,
`mouse`, `keyboard`, `container`. -/
def cleanup (s : GCState) : GCState × List Event :=
  let destroyEvents :=
    (if s.clipboardManager then [Event.destroyClipboard] else []) ++
    (if s.keyboardStateManager then [Event.destroyKeyboardGuard] else []) ++
    (if s.mouseCursorManager then [Event.destroyCursor] else []) ++
    (if s.resolutionManager then [Event.destroyResolution] else [])
  let nullManagerEvents :=
    [Event.nullClipboardRef, Event.nullKeyboardGuardRef,
     Event.nullCursorRef, Event.nullResolutionRef]
  let detachEvents := if s.display && s.container then [Event.detachDisplay] else []
  let nullHandleEvents :=
    [Event.nullClient, Event.nullTunnel, Event.nullDisplay,
     Event.nullMouse, Event.nullKeyboardHandle, Event.nullContainer]
  ({ s with
      client := false, tunnel := false, display := false,
      mouse := false, keyboard := false, container := false,
      clipboardManager := false, keyboardStateManager := false,
      mouseCursorManager := false, resolutionManager := false },
   destroyEvents ++ nullManagerEvents ++ detachEvents ++ nullHandleEvents)

/-- `GuacamoleConnection.handleError`: transition to ERROR, invoke the error
callback when registered, then run `cleanup`. -/
def handleError (s : GCState) : GCState × List Event :=
  let r1 := s.setState ConnectionState.ERROR
  let errEvents := if s.hasErrorListener then [Event.notifyError] else []
  let r2 := r1.1.cleanup
  (r2.1, r1.2 ++ errEvents ++ r2.2)

/-- `GuacamoleConnection.onDisconnected` (fired by client state code 5):
transition to DISCONNECTED, then run `cleanup`. -/
def onDisconnected (s : GCState) : GCState × List Event :=
  let r1 := s.setState ConnectionState.DISCONNECTED
  let r2 := r1.1.cleanup
  (r2.1, r1.2 ++ r2.2)

/-- The reference-populating part of `initializeConnection` /
`setupInputHandlers`: construct tunnel and client, obtain the display, attach
its element to the container, create mouse and keyboard adapters, and
instantiate the four subsystem managers. -/
def setupSession (s : GCState) : GCState × List Event :=
  ({ s with
      tunnel := true, client := true, display := true,
      mouse := true, keyboard := true,
      clipboardManager := true, keyboardStateManager := true,
      mouseCursorManager := true, resolutionManager := true },
   [Event.constructTunnel, Event.constructClient, Event.attachDisplay])

/-- `GuacamoleConnection.connect(container)`.  `authValid` models
`authManager.isValid()`; `initOk` models whether `initializeConnection` runs
to completion or throws (in which case the `catch` branch calls
`handleError`).  Guard as in source: any state other than IDLE or DISCONNECTED
logs one warning and returns with nothing else done. -/
def connect (s : GCState) (authValid : Bool) (initOk : Bool) : GCState × List Event :=
  if s.state ≠ ConnectionState.IDLE ∧ s.state ≠ ConnectionState.DISCONNECTED then
    (s, [Event.warn])
  else if ¬authValid then
    s.handleError
  else
    let s1 : GCState := { s with container := true }
    let r2 := s1.setState ConnectionState.CONNECTING
    if initOk then
      let r3 := r2.1.setupSession
      (r3.1, r2.2 ++ r3.2)
    else
      let r3 := r2.1.handleError
      (r3.1, r2.2 ++ r3.2)

end GCState

/-- A controller resting in the ERROR terminal state after a fatal error and
its teardown: every reference null, both listeners registered. -/
def errorRestState : GCState :=
  ⟨ConnectionState.ERROR, false, false, false, false, false, false,
   false, false, false, false, true, true⟩

/-- A controller resting in DISCONNECTED after a clean close: every reference
null, both listeners registered. -/
def disconnectedRestState : GCState :=
  ⟨ConnectionState.DISCONNECTED, false, false, false, false, false, false,
   false, false, false, false, true, true⟩

/-- A fully established session: CONNECTED with every reference populated and
both listeners registered. -/
def connectedLiveState : GCState :=
  ⟨ConnectionState.CONNECTED, true, true, true, true, true, true,
   true, true, true, true, true, true⟩

/-- The effect trace of `cleanup` on a fully populated session, in source
order: the four subsystem `destroy()` calls (clipboard, keyboard-guard,
cursor, resolution), the four subsystem reference clears, the display-element
detach, then the clears of the `client`, `tunnel`, `display`, `mouse`,
`keyboard` and `container` handles. -/
def teardownTrace : List Event :=
  [Event.destroyClipboard, Event.destroyKeyboardGuard,
   Event.destroyCursor, Event.destroyResolution,
   Event.nullClipboardRef, Event.nullKeyboardGuardRef,
   Event.nullCursorRef, Event.nullResolutionRef,
   Event.detachDisplay,
   Event.nullClient, Event.nullTunnel, Event.nullDisplay,
   Event.nullMouse, Event.nullKeyboardHandle, Event.nullContainer]

/-- All object references of the controller are null. -/
def allRefsNull (s : GCState) : Prop :=
  s.client = false ∧ s.tunnel = false ∧ s.display = false ∧
  s.mouse = false ∧ s.keyboard = false ∧ s.container = false ∧
  s.clipboardManager = false ∧ s.keyboardStateManager = false ∧
  s.mouseCursorManager = false ∧ s.resolutionManager = false

/-- C1 counterexample: from the ERROR terminal state, `connect` with a valid
credential is rejected by the state guard — it emits one warning, constructs
nothing, and the state remains ERROR instead of transitioning to CONNECTING. -/
theorem connect_from_error_rejected :
    (errorRestState.connect true true).1.state = ConnectionState.ERROR ∧
    ¬ (errorRestState.connect true true).1.state = ConnectionState.CONNECTING ∧
    (errorRestState.connect true true).2 = [Event.warn] := by decide

/-- C1 (amended): a fresh `connect` with a valid credential (and setup not
throwing) transitions to CONNECTING exactly from IDLE and from DISCONNECTED;
from the ERROR terminal state `connect` is rejected: it returns with the state
unchanged and a single warning. -/
theorem connect_accept_guard (s : GCState)
    (h : s.state = ConnectionState.IDLE ∨ s.state = ConnectionState.DISCONNECTED) :
    (s.connect true true).1.state = ConnectionState.CONNECTING ∧
    (∀ t : GCState, t.state = ConnectionState.ERROR →
      ∀ authValid initOk : Bool, t.connect authValid initOk = (t, [Event.warn])) := by
  constructor
  · unfold GCState.connect GCState.setState GCState.setupSession
    rcases h with h | h <;> simp [h]
  · intro t ht authValid initOk
    unfold GCState.connect
    simp [ht]

/-- C1 amended-claim witness at a concrete DISCONNECTED controller. -/
theorem connect_accept_guard_witness :
    (disconnectedRestState.connect true true).1.state = ConnectionState.CONNECTING ∧
    (∀ t : GCState, t.state = ConnectionState.ERROR →
      ∀ authValid initOk : Bool, t.connect authValid initOk = (t, [Event.warn])) :=
  connect_accept_guard disconnectedRestState (Or.inr rfl)

/-- C3: while CONNECTING or CONNECTED, a second `connect` call is a no-op that
emits exactly one warning: the returned state equals the input state (same
`ConnectionState`, same references — no second transport, no second session)
and the only effect is the warning. -/
theorem connect_noop_when_active (s : GCState) (authValid initOk : Bool)
    (h : s.state = ConnectionState.CONNECTING ∨ s.state = ConnectionState.CONNECTED) :
    s.connect authValid initOk = (s, [Event.warn]) := by
  unfold GCState.connect
  rcases h with h | h <;> simp [h]

/-- C3 witness at a concrete fully-connected controller. -/
theorem connect_noop_when_active_witness :
    connectedLiveState.connect true true = (connectedLiveState, [Event.warn]) :=
  connect_noop_when_active connectedLiveState true true (Or.inr rfl)

/-- C7: on a transition into DISCONNECTED (`onDisconnected`) or ERROR
(`handleError`) from a fully populated session, teardown runs exactly once and
its effect trace is exactly `teardownTrace`: the four subsystems are destroyed
in the order clipboard → keyboard-guard → cursor → resolution, the display
element is detached after those destructions, and every transport / display /
input / container handle is nulled after the detach; afterwards all four
subsystem references and all handles are null. -/
theorem teardown_order_complete (s : GCState)
    (h : s.clipboardManager = true ∧ s.keyboardStateManager = true ∧
         s.mouseCursorManager = true ∧ s.resolutionManager = true ∧
         s.display = true ∧ s.container = true) :
    s.onDisconnected.2 = (s.setState ConnectionState.DISCONNECTED).2 ++ teardownTrace ∧
    s.handleError.2 = (s.setState ConnectionState.ERROR).2 ++
      (if s.hasErrorListener then [Event.notifyError] else []) ++ teardownTrace ∧
    allRefsNull s.onDisconnected.1 ∧
    allRefsNull s.handleError.1 := by
  obtain ⟨h1, h2, h3, h4, h5, h6⟩ := h
  unfold GCState.onDisconnected GCState.handleError GCState.cleanup
    GCState.setState teardownTrace allRefsNull
  by_cases hd : s.state = ConnectionState.DISCONNECTED <;>
    by_cases he : s.state = ConnectionState.ERROR <;>
      simp_all

/-- C7 witness at a concrete fully-connected controller. -/
theorem teardown_order_complete_witness :
    connectedLiveState.onDisconnected.2 =
      (connectedLiveState.setState ConnectionState.DISCONNECTED).2 ++ teardownTrace ∧
    connectedLiveState.handleError.2 =
      (connectedLiveState.setState ConnectionState.ERROR).2 ++
      (if connectedLiveState.hasErrorListener then [Event.notifyError] else []) ++
      teardownTrace ∧
    allRefsNull connectedLiveState.onDisconnected.1 ∧
    allRefsNull connectedLiveState.handleError.1 :=
  teardown_order_complete connectedLiveState
    ⟨rfl, rfl, rfl, rfl, rfl, rfl⟩

/-- C10: the state setter is change-triggered.  Setting the stored state to the
value it already holds leaves the state untouched and fires no notification;
setting it to a different value stores it and fires exactly one state-change
notification (given a registered listener).  A fatal error while already in
ERROR fires the error notification again but no state-change notification. -/
theorem setState_change_triggered (s : GCState) (n : ConnectionState)
    (hL : s.hasStateListener = true) :
    (s.state = n → s.setState n = (s, [])) ∧
    (s.state ≠ n →
      (s.setState n).1.state = n ∧ (s.setState n).2 = [Event.notifyState n]) ∧
    (s.state = ConnectionState.ERROR → s.hasErrorListener = true →
      Event.notifyError ∈ s.handleError.2 ∧
      ∀ m, Event.notifyState m ∉ s.handleError.2) := by
  refine ⟨?_, ?_, ?_⟩
  · intro h
    simp [GCState.setState, h]
  · intro h
    simp [GCState.setState, h, hL]
  · intro hs hE
    unfold GCState.handleError GCState.setState GCState.cleanup
    simp [hs, hE]

/-- C10 witness: a repeated ERROR transition at a concrete controller. -/
theorem setState_change_triggered_witness :
    (errorRestState.state = ConnectionState.ERROR →
      errorRestState.setState ConnectionState.ERROR = (errorRestState, [])) ∧
    (errorRestState.state ≠ ConnectionState.ERROR →
      (errorRestState.setState ConnectionState.ERROR).1.state = ConnectionState.ERROR ∧
      (errorRestState.setState ConnectionState.ERROR).2 =
        [Event.notifyState ConnectionState.ERROR]) ∧
    (errorRestState.state = ConnectionState.ERROR →
      errorRestState.hasErrorListener = true →
      Event.notifyError ∈ errorRestState.handleError.2 ∧
      ∀ m, Event.notifyState m ∉ errorRestState.handleError.2) :=
  setState_change_triggered errorRestState ConnectionState.ERROR rfl

/-- `ResolutionConfig` of `ResolutionManager.ts`. -/
structure ResolutionConfig where
  minWidth : ℤ
  minHeight : ℤ
  maxWidth : ℤ
  maxHeight : ℤ
  debounceMs : ℤ
  deriving DecidableEq, Repr

/-- The default configuration of `ResolutionManager`. -/
def defaultResolutionConfig : ResolutionConfig :=
  { minWidth := 640, minHeight := 480, maxWidth := 4096, maxHeight := 4096,
    debounceMs := 250 }

/-- One axis of `calculateOptimalSize`:
`v = Math.max(lo, Math.min(v, hi)); v = Math.floor(v / 4) * 4`
(clamp to `[lo, hi]`, then round down to a multiple of 4; `Math.floor` of an
exact integer quotient is floor division, `Int.fdiv`). -/
def clampAlign (lo hi v : ℤ) : ℤ :=
  Int.fdiv (max lo (min v hi)) 4 * 4

/-- `ResolutionManager.calculateOptimalSize`: container geometry is forced to
at least 1 (`Math.max(1, rect.width)`), multiplied by the device pixel density
(`window.devicePixelRatio || 1`: a zero/absent density falls back to 1) and
floored to integer pixels; each axis is then clamped and aligned. -/
def calculateOptimalSize (cfg : ResolutionConfig) (rectWidth rectHeight dpr : ℚ) :
    ℤ × ℤ :=
  let containerWidth := max 1 rectWidth
  let containerHeight := max 1 rectHeight
  let density := if dpr = 0 then 1 else dpr
  let w := ⌊containerWidth * density⌋
  let h := ⌊containerHeight * density⌋
  (clampAlign cfg.minWidth cfg.maxWidth w,
   clampAlign cfg.minHeight cfg.maxHeight h)

/-- State of a `ResolutionManager` instance: the last dimensions recorded by a
successful `sendSize`, whether the client reference is non-null, and whether
the manager is started. -/
structure ResState where
  lastWidth : ℤ
  lastHeight : ℤ
  hasClient : Bool
  isActive : Bool
  deriving DecidableEq, Repr

namespace ResState

/-- `ResolutionManager.sendSizeUpdate`: returns with no send when the client
reference is null; otherwise calls `client.sendSize(width, height)` inside
`try`/`catch` — the returned list records the attempted send.  Only when the
send does not throw (`sendOk`) are `lastWidth`/`lastHeight` updated; a thrown
error is caught and logged, so the state is unchanged and nothing propagates
to the caller. -/
def sendSizeUpdate (s : ResState) (width height : ℤ) (sendOk : Bool) :
    ResState × List (ℤ × ℤ) :=
  if ¬s.hasClient then (s, [])
  else if sendOk then
    ({ s with lastWidth := width, lastHeight := height }, [(width, height)])
  else (s, [(width, height)])

/-- `ResolutionManager.performResize` (the body of a debounced recalculation),
applied to the computed optimal dimensions: skips the send when they equal the
last dimensions sent, otherwise delegates to `sendSizeUpdate`. -/
def performResize (s : ResState) (computedW computedH : ℤ) (sendOk : Bool) :
    ResState × List (ℤ × ℤ) :=
  if computedW = s.lastWidth ∧ computedH = s.lastHeight then (s, [])
  else s.sendSizeUpdate computedW computedH sendOk

/-- `ResolutionManager.sendInitialSize` (called unconditionally from
`start()` before the resize observer is installed): sends the computed size
with no comparison against the last dimensions sent. -/
def sendInitialSize (s : ResState) (computedW computedH : ℤ) (sendOk : Bool) :
    ResState × List (ℤ × ℤ) :=
  s.sendSizeUpdate computedW computedH sendOk

end ResState

/-- One clamped-and-aligned axis is a multiple of 4 and stays within
`[lo, hi]`, provided `lo ≤ hi` and `lo` itself is a multiple of 4. -/
theorem clampAlign_mem (lo hi v : ℤ) (hlh : lo ≤ hi) (hl4 : (4 : ℤ) ∣ lo) :
    clampAlign lo hi v % 4 = 0 ∧ lo ≤ clampAlign lo hi v ∧ clampAlign lo hi v ≤ hi := by
  unfold clampAlign
  rw [Int.fdiv_eq_ediv _ (by norm_num)]
  have h1 : lo ≤ max lo (min v hi) := le_max_left _ _
  have h2 : max lo (min v hi) ≤ hi := max_le hlh (min_le_right _ _)
  omega

/-- C2 counterexample: with configuration minWidth = 641 (minHeight 480,
max 4096×4096), the raw container size 641×481 at density 1 is clamped to 641
and then rounded down to 640, which is strictly below the configured
minWidth — the claimed bound `minWidth ≤ width` fails for this
configuration. -/
theorem calculateOptimalSize_min_violation :
    (calculateOptimalSize ⟨641, 480, 4096, 4096, 250⟩ 641 481 1).1 = 640 ∧
    ¬ ((641 : ℤ) ≤ (calculateOptimalSize ⟨641, 480, 4096, 4096, 250⟩ 641 481 1).1) := by
  constructor
  · unfold calculateOptimalSize clampAlign
    norm_num [max_def, min_def, Int.fdiv_eq_ediv]
  · unfold calculateOptimalSize clampAlign
    norm_num [max_def, min_def, Int.fdiv_eq_ediv]

/-- C2 (amended): for every raw container size and pixel-density input, each
emitted dimension is a multiple of 4 and lies within its configured
`[min, max]` range, provided the configuration satisfies `min ≤ max` per axis
and each minimum is itself a multiple of 4 — as the defaults 640×480 /
4096×4096 are.  (Rounding down to a multiple of 4 happens after clamping, so a
minimum that is not a multiple of 4 can be undershot by up to 3.)  The raw
size 1923×1081 at density 1 yields 1920×1080 under the default
configuration. -/
theorem calculateOptimalSize_bounds (cfg : ResolutionConfig)
    (rectWidth rectHeight dpr : ℚ)
    (hwm : cfg.minWidth ≤ cfg.maxWidth) (hhm : cfg.minHeight ≤ cfg.maxHeight)
    (hw4 : (4 : ℤ) ∣ cfg.minWidth) (hh4 : (4 : ℤ) ∣ cfg.minHeight) :
    (calculateOptimalSize cfg rectWidth rectHeight dpr).1 % 4 = 0 ∧
    (calculateOptimalSize cfg rectWidth rectHeight dpr).2 % 4 = 0 ∧
    cfg.minWidth ≤ (calculateOptimalSize cfg rectWidth rectHeight dpr).1 ∧
    (calculateOptimalSize cfg rectWidth rectHeight dpr).1 ≤ cfg.maxWidth ∧
    cfg.minHeight ≤ (calculateOptimalSize cfg rectWidth rectHeight dpr).2 ∧
    (calculateOptimalSize cfg rectWidth rectHeight dpr).2 ≤ cfg.maxHeight ∧
    calculateOptimalSize defaultResolutionConfig 1923 1081 1 = (1920, 1080) := by
  have hw := clampAlign_mem cfg.minWidth cfg.maxWidth
    ⌊(max 1 rectWidth) * (if dpr = 0 then 1 else dpr)⌋ hwm hw4
  have hh := clampAlign_mem cfg.minHeight cfg.maxHeight
    ⌊(max 1 rectHeight) * (if dpr = 0 then 1 else dpr)⌋ hhm hh4
  have hex : calculateOptimalSize defaultResolutionConfig 1923 1081 1 = (1920, 1080) := by
    unfold calculateOptimalSize clampAlign defaultResolutionConfig
    norm_num [max_def, min_def, Int.fdiv_eq_ediv]
  exact ⟨hw.1, hh.1, hw.2.1, hw.2.2, hh.2.1, hh.2.2, hex⟩

/-- C2 amended-claim witness at the default configuration and the spec's
example input. -/
theorem calculateOptimalSize_bounds_witness :
    (calculateOptimalSize defaultResolutionConfig 1923 1081 1).1 % 4 = 0 ∧
    (calculateOptimalSize defaultResolutionConfig 1923 1081 1).2 % 4 = 0 ∧
    defaultResolutionConfig.minWidth ≤
      (calculateOptimalSize defaultResolutionConfig 1923 1081 1).1 ∧
    (calculateOptimalSize defaultResolutionConfig 1923 1081 1).1 ≤
      defaultResolutionConfig.maxWidth ∧
    defaultResolutionConfig.minHeight ≤
      (calculateOptimalSize defaultResolutionConfig 1923 1081 1).2 ∧
    (calculateOptimalSize defaultResolutionConfig 1923 1081 1).2 ≤
      defaultResolutionConfig.maxHeight ∧
    calculateOptimalSize defaultResolutionConfig 1923 1081 1 = (1920, 1080) :=
  calculateOptimalSize_bounds defaultResolutionConfig 1923 1081 1
    (by decide) (by decide) (by decide) (by decide)

/-- A resolution manager at its initial recorded size (`lastWidth = lastHeight
= 0` as in the class initializers) with a live client, started. -/
def startedResState : ResState :=
  { lastWidth := 0, lastHeight := 0, hasClient := true, isActive := true }

/-- C8: with a live client, `sendInitialSize` sends unconditionally (exactly
one size instruction, before any observer fires); a debounced `performResize`
sends nothing exactly when the computed dimensions equal the last dimensions
sent; and when they differ, the first of two consecutive recalculations with
identical computed dimensions sends exactly one instruction and the second
sends none. -/
theorem resize_redundancy_suppression (s : ResState) (w h : ℤ)
    (hc : s.hasClient = true) :
    (s.sendInitialSize w h true).2 = [(w, h)] ∧
    ((s.performResize w h true).2 = [] ↔ w = s.lastWidth ∧ h = s.lastHeight) ∧
    (¬(w = s.lastWidth ∧ h = s.lastHeight) →
      (s.performResize w h true).2 = [(w, h)] ∧
      ((s.performResize w h true).1.performResize w h true).2 = []) := by
  refine ⟨?_, ?_, ?_⟩
  · simp [ResState.sendInitialSize, ResState.sendSizeUpdate, hc]
  · unfold ResState.performResize ResState.sendSizeUpdate
    split_ifs with h1 h2 <;> simp_all
  · intro hne
    unfold ResState.performResize ResState.sendSizeUpdate
    simp [hne, hc]

/-- C8 witness at a freshly started manager and computed size 1920×1080. -/
theorem resize_redundancy_suppression_witness :
    (startedResState.sendInitialSize 1920 1080 true).2 = [(1920, 1080)] ∧
    ((startedResState.performResize 1920 1080 true).2 = [] ↔
      (1920 : ℤ) = startedResState.lastWidth ∧ (1080 : ℤ) = startedResState.lastHeight) ∧
    (¬((1920 : ℤ) = startedResState.lastWidth ∧ (1080 : ℤ) = startedResState.lastHeight) →
      (startedResState.performResize 1920 1080 true).2 = [(1920, 1080)] ∧
      ((startedResState.performResize 1920 1080 true).1.performResize 1920 1080 true).2 =
        []) :=
  resize_redundancy_suppression startedResState 1920 1080 rfl

/-- C9: a failing `sendSize` is contained: `sendSizeUpdate` is total (the
exception is caught; nothing propagates to the caller), leaves the manager
state — in particular `lastWidth`/`lastHeight` — unchanged while still
recording one attempted send, and a later recalculation computing the same
dimensions is not suppressed as redundant: it retries the send and, on
success, records the dimensions. -/
theorem sendSize_failure_contained (s : ResState) (w h : ℤ)
    (hc : s.hasClient = true) :
    (s.sendSizeUpdate w h false).1 = s ∧
    (s.sendSizeUpdate w h false).2 = [(w, h)] ∧
    (¬(w = s.lastWidth ∧ h = s.lastHeight) →
      ((s.sendSizeUpdate w h false).1.performResize w h true).2 = [(w, h)] ∧
      ((s.sendSizeUpdate w h false).1.performResize w h true).1.lastWidth = w ∧
      ((s.sendSizeUpdate w h false).1.performResize w h true).1.lastHeight = h) := by
  refine ⟨?_, ?_, ?_⟩
  · simp [ResState.sendSizeUpdate, hc]
  · simp [ResState.sendSizeUpdate, hc]
  · intro hne
    unfold ResState.sendSizeUpdate ResState.performResize
    simp [hne, hc]
    unfold ResState.sendSizeUpdate
    simp [hc]

/-- C9 witness: a failed send of 1920×1080 at a freshly started manager,
followed by a successful retry. -/
theorem sendSize_failure_contained_witness :
    (startedResState.sendSizeUpdate 1920 1080 false).1 = startedResState ∧
    (startedResState.sendSizeUpdate 1920 1080 false).2 = [(1920, 1080)] ∧
    (¬((1920 : ℤ) = startedResState.lastWidth ∧ (1080 : ℤ) = startedResState.lastHeight) →
      ((startedResState.sendSizeUpdate 1920 1080 false).1.performResize 1920 1080 true).2 =
        [(1920, 1080)] ∧
      ((startedResState.sendSizeUpdate 1920 1080 false).1.performResize 1920 1080
          true).1.lastWidth = 1920 ∧
      ((startedResState.sendSizeUpdate 1920 1080 false).1.performResize 1920 1080
          true).1.lastHeight = 1080) :=
  sendSize_failure_contained startedResState 1920 1080 rfl

/-- State of a `KeyboardStateManager` instance: the set of currently pressed
key symbols, whether the wrapped keyboard adapter is non-null and offers a
`reset` operation (`this.keyboard && this.keyboard.reset`), and the
logical-enabled flag. -/
structure KbdState where
  pressedKeys : Finset ℕ
  hasKeyboardReset : Bool
  isActive : Bool
  deriving DecidableEq

namespace KbdState

/-- `KeyboardStateManager.releaseAllKeys`: returns immediately when no key is
pressed (no remote message, no reset).  Otherwise it snapshots the pressed
set (`Array.from`; the source iterates in the JS Set's insertion order — here
the snapshot is listed in ascending keysym order, one entry per key), sends
one key-release instruction per key in the snapshot (each send is wrapped in
`try`/`catch`, so every key is attempted), clears the set, and — when the
keyboard adapter exposes `reset` — invokes it once.  Result: new state, the
list of keysyms released, and the number of `reset` calls. -/
def releaseAllKeys (s : KbdState) : KbdState × List ℕ × ℕ :=
  if s.pressedKeys = ∅ then (s, [], 0)
  else ({ s with pressedKeys := ∅ },
        s.pressedKeys.sort (· ≤ ·),
        if s.hasKeyboardReset then 1 else 0)

/-- `KeyboardStateManager.onWindowBlur` (and equally the page-hidden branch of
`onVisibilityChange`): release all keys. -/
def onWindowBlur (s : KbdState) : KbdState × List ℕ × ℕ :=
  s.releaseAllKeys

end KbdState

/-- C4: a window-blur (or page-hidden) event sends exactly one release
instruction per currently-pressed key — the released list has no duplicates
and contains exactly the keys of the set — empties the set, and invokes the
keyboard adapter's `reset` exactly once; with an empty set it sends nothing
and performs no reset. -/
theorem blur_releases_all_keys (s : KbdState) (hr : s.hasKeyboardReset = true) :
    (∀ k, k ∈ s.onWindowBlur.2.1 ↔ k ∈ s.pressedKeys) ∧
    s.onWindowBlur.2.1.Nodup ∧
    s.onWindowBlur.2.1.length = s.pressedKeys.card ∧
    s.onWindowBlur.1.pressedKeys = ∅ ∧
    (s.pressedKeys ≠ ∅ → s.onWindowBlur.2.2 = 1) ∧
    (s.pressedKeys = ∅ → s.onWindowBlur = (s, [], 0)) := by
  unfold KbdState.onWindowBlur KbdState.releaseAllKeys
  by_cases he : s.pressedKeys = ∅ <;>
    simp [he, hr, Finset.mem_sort, Finset.sort_nodup, Finset.length_sort]

/-- C4 witness: a blur with pressed keys {65, 66} (keysyms of A and B). -/
theorem blur_releases_all_keys_witness :
    (∀ k, k ∈ (KbdState.mk {65, 66} true true).onWindowBlur.2.1 ↔
      k ∈ (KbdState.mk {65, 66} true true).pressedKeys) ∧
    (KbdState.mk {65, 66} true true).onWindowBlur.2.1.Nodup ∧
    (KbdState.mk {65, 66} true true).onWindowBlur.2.1.length =
      (KbdState.mk {65, 66} true true).pressedKeys.card ∧
    (KbdState.mk {65, 66} true true).onWindowBlur.1.pressedKeys = ∅ ∧
    ((KbdState.mk {65, 66} true true).pressedKeys ≠ ∅ →
      (KbdState.mk {65, 66} true true).onWindowBlur.2.2 = 1) ∧
    ((KbdState.mk {65, 66} true true).pressedKeys = ∅ →
      (KbdState.mk {65, 66} true true).onWindowBlur =
        (KbdState.mk {65, 66} true true, [], 0)) :=
  blur_releases_all_keys (KbdState.mk {65, 66} true true) rfl

/-- State of a `ClipboardManager` instance: the echo-suppression snapshot pair
and whether the client reference is non-null. -/
structure ClipState where
  lastLocalClipboard : String
  lastRemoteClipboard : String
  hasClient : Bool
  deriving DecidableEq, Repr

namespace ClipState

/-- `ClipboardManager.sendToRemote`: returns without sending when the client
reference is null or the text is empty; otherwise opens a clipboard stream,
writes the text and closes the stream (one remote send; a throwing send is
caught and logged).  Returns whether a send was issued. -/
def sendToRemote (s : ClipState) (text : String) : Bool :=
  s.hasClient && text ≠ ""

/-- `ClipboardManager.checkLocalClipboard`, applied to the text read from the
host clipboard by a successful poll: when the text is non-empty and differs
from both `lastLocalClipboard` and `lastRemoteClipboard`, record it as
`lastLocalClipboard` and send it to the remote; otherwise do nothing.
Returns the new state and whether a remote send was issued. -/
def checkLocalClipboard (s : ClipState) (text : String) : ClipState × Bool :=
  if text ≠ "" ∧ text ≠ s.lastLocalClipboard ∧ text ≠ s.lastRemoteClipboard then
    ({ s with lastLocalClipboard := text }, s.sendToRemote text)
  else (s, false)

/-- The `reader.onend` continuation of
`ClipboardManager.setupRemoteClipboardHandler`: the accumulated remote text is
recorded as `lastRemoteClipboard` and written to the host clipboard
(`updateLocalClipboard`), which on success — via the async API or the
fallback — also records it as `lastLocalClipboard`. -/
def onRemoteClipboardEnd (s : ClipState) (data : String) (writeOk : Bool) : ClipState :=
  let s1 : ClipState := { s with lastRemoteClipboard := data }
  if writeOk then { s1 with lastLocalClipboard := data } else s1

end ClipState

/-- C5: with a live client, a local poll forwards the read text to the remote
if and only if it is non-empty and differs from both `lastLocalClipboard` and
`lastRemoteClipboard`; when it forwards, the text is recorded as
`lastLocalClipboard`; when it does not, the state is unchanged.  In
particular, after a remote→local delivery of any text X (which sets
`lastRemoteClipboard := X`), a poll reading back X sends nothing. -/
theorem clipboard_echo_suppression (s : ClipState) (text : String)
    (hc : s.hasClient = true) :
    ((s.checkLocalClipboard text).2 = true ↔
      text ≠ "" ∧ text ≠ s.lastLocalClipboard ∧ text ≠ s.lastRemoteClipboard) ∧
    ((s.checkLocalClipboard text).2 = true →
      (s.checkLocalClipboard text).1.lastLocalClipboard = text) ∧
    ((s.checkLocalClipboard text).2 = false → (s.checkLocalClipboard text).1 = s) ∧
    (∀ (x : String) (writeOk : Bool),
      ((s.onRemoteClipboardEnd x writeOk).checkLocalClipboard x).2 = false) := by
  refine ⟨?_, ?_, ?_, ?_⟩
  · unfold ClipState.checkLocalClipboard ClipState.sendToRemote
    split_ifs with h
    · simp_all
    · exact iff_of_false (by simp) h
  · unfold ClipState.checkLocalClipboard
    split_ifs with h <;> simp_all
  · unfold ClipState.checkLocalClipboard ClipState.sendToRemote
    split_ifs with h <;> simp_all
  · intro x writeOk
    unfold ClipState.onRemoteClipboardEnd ClipState.checkLocalClipboard
    split_ifs with h1 h2 h3 <;> simp_all

/-- C5 witness: a manager with empty snapshots, remote delivery of "X", then a
poll reading "X" back. -/
theorem clipboard_echo_suppression_witness :
    (((ClipState.mk "" "" true).checkLocalClipboard "X").2 = true ↔
      "X" ≠ "" ∧ "X" ≠ (ClipState.mk "" "" true).lastLocalClipboard ∧
        "X" ≠ (ClipState.mk "" "" true).lastRemoteClipboard) ∧
    (((ClipState.mk "" "" true).checkLocalClipboard "X").2 = true →
      ((ClipState.mk "" "" true).checkLocalClipboard "X").1.lastLocalClipboard = "X") ∧
    (((ClipState.mk "" "" true).checkLocalClipboard "X").2 = false →
      ((ClipState.mk "" "" true).checkLocalClipboard "X").1 = ClipState.mk "" "" true) ∧
    (∀ (x : String) (writeOk : Bool),
      (((ClipState.mk "" "" true).onRemoteClipboardEnd x writeOk).checkLocalClipboard
        x).2 = false) :=
  clipboard_echo_suppression (ClipState.mk "" "" true) "X" rfl

/-- The CSS `cursor` style applied to the display container by
`MouseCursorManager`: `'none'`, `'default'`, or a remote cursor image URL
with its hotspot (`url(...) x y, auto`). -/
inductive CursorStyle
  | hidden
  | defaultArrow
  | remoteImage (x y : ℤ)
  deriving DecidableEq, Repr

/-- State of a `MouseCursorManager` instance: the container's pointer style
and the `isRemoteCursorVisible` flag. -/
structure CursorState where
  style : CursorStyle
  isRemoteCursorVisible : Bool
  deriving DecidableEq, Repr

namespace CursorState

/-- State after the `MouseCursorManager` constructor: `setupCursorHandling`
registers the `oncursor` callback and calls `hideLocalCursor`
(`cursor = 'none'`); `isRemoteCursorVisible` starts false. -/
def init : CursorState :=
  { style := CursorStyle.hidden, isRemoteCursorVisible := false }

/-- `MouseCursorManager.showRemoteCursor`: mark the remote cursor visible and
set the pointer style to the rasterized remote image at its hotspot. -/
def showRemoteCursor (s : CursorState) (x y : ℤ) : CursorState :=
  { s with isRemoteCursorVisible := true, style := CursorStyle.remoteImage x y }

/-- `MouseCursorManager.hideRemoteCursor`: a no-op when the remote cursor is
not marked visible; otherwise clear the flag and set the pointer style to
`'none'` (hidden, not `'default'`). -/
def hideRemoteCursor (s : CursorState) : CursorState :=
  if ¬s.isRemoteCursorVisible then s
  else { s with isRemoteCursorVisible := false, style := CursorStyle.hidden }

/-- The `display.oncursor` callback: a non-null canvas (with hotspot x, y)
shows the remote cursor, a null canvas hides it. -/
def oncursor (s : CursorState) (img : Option (ℤ × ℤ)) : CursorState :=
  match img with
  | some (x, y) => s.showRemoteCursor x y
  | none => s.hideRemoteCursor

/-- A connected session's cursor state after a sequence of `oncursor`
callbacks from the remote. -/
def run (evs : List (Option (ℤ × ℤ))) : CursorState :=
  evs.foldl oncursor init

/-- The host pointer is visible over the container exactly when the pointer
style is `'default'` (set only by `showLocalCursor`, i.e. on `destroy`). -/
def hostPointerVisible (s : CursorState) : Bool :=
  s.style = CursorStyle.defaultArrow

/-- A remote cursor image is applied as the container's pointer style. -/
def remoteCursorApplied (s : CursorState) : Bool :=
  match s.style with
  | CursorStyle.remoteImage _ _ => true
  | _ => false

end CursorState

/-- C6 counterexample: in a connected session in which the remote showed its
cursor and then hid it (a null cursor image), the pointer style is `'none'`:
the host pointer is not visible and no remote cursor image is applied — so
"exactly one of the two holds at every point" fails ("neither" is
reachable). -/
theorem cursor_neither_state_reachable :
    (CursorState.run [some (3, 4), none]).hostPointerVisible = false ∧
    (CursorState.run [some (3, 4), none]).remoteCursorApplied = false := by decide

/-- Invariant of cursor states reachable by `oncursor` callbacks in a session:
the style is never `'default'`, and the style is a remote image exactly when
`isRemoteCursorVisible` is set. -/
theorem cursor_run_invariant (evs : List (Option (ℤ × ℤ))) :
    (CursorState.run evs).style ≠ CursorStyle.defaultArrow ∧
    ((CursorState.run evs).isRemoteCursorVisible = false →
      (CursorState.run evs).style = CursorStyle.hidden) := by
  unfold CursorState.run
  suffices h : ∀ s : CursorState,
      s.style ≠ CursorStyle.defaultArrow ∧
      (s.isRemoteCursorVisible = false → s.style = CursorStyle.hidden) →
      (evs.foldl CursorState.oncursor s).style ≠ CursorStyle.defaultArrow ∧
      ((evs.foldl CursorState.oncursor s).isRemoteCursorVisible = false →
        (evs.foldl CursorState.oncursor s).style = CursorStyle.hidden) by
    exact h CursorState.init ⟨by simp [CursorState.init], fun _ => rfl⟩
  induction evs with
  | nil => exact fun s hs => hs
  | cons e rest ih =>
    intro s hs
    refine ih (s.oncursor e) ?_
    rcases e with _ | ⟨x, y⟩
    · unfold CursorState.oncursor CursorState.hideRemoteCursor
      by_cases hv : s.isRemoteCursorVisible <;> simp_all
    · unfold CursorState.oncursor CursorState.showRemoteCursor
      simp

/-- C6 (amended): in a connected session the two cursors are never
simultaneously visible (the host pointer style is never `'default'` under any
sequence of remote cursor callbacks), and on a null remote cursor image the
style becomes `'hidden'` (never `'default'`), so no host cursor appears; but
"exactly one" does not hold: when the remote hides its cursor, neither a host
pointer nor a remote cursor image is shown. -/
theorem cursor_exclusivity_amended (evs : List (Option (ℤ × ℤ))) :
    (CursorState.run evs).hostPointerVisible = false ∧
    ¬((CursorState.run evs).hostPointerVisible = true ∧
      (CursorState.run evs).remoteCursorApplied = true) ∧
    (CursorState.run (evs ++ [none])).style = CursorStyle.hidden := by
  obtain ⟨h1, h2⟩ := cursor_run_invariant evs
  refine ⟨?_, ?_, ?_⟩
  · unfold CursorState.hostPointerVisible
    simp [h1]
  · unfold CursorState.hostPointerVisible
    simp [h1]
  · have : CursorState.run (evs ++ [none]) = (CursorState.run evs).hideRemoteCursor := by
      unfold CursorState.run
      rw [List.foldl_append]
      rfl
    rw [this]
    unfold CursorState.hideRemoteCursor
    by_cases hv : (CursorState.run evs).isRemoteCursorVisible <;> simp_all

end GuacWeb
